import Mathlib

set_option maxRecDepth 1000000

deriving instance DecidableEq for Except

/-!
Verification of the maestro-utils partition-table and ext2 cores.

This file shallowly embeds the relevant code of the repository:
- `fdisk/src/crc32.rs` (table-driven CRC32),
- `fdisk/src/partition.rs` (LBA translation, GUID parsing, MBR/GPT read
  and write, sfdisk-script serialization),
- `src/fdisk/guid.rs` (the `FromStr` GUID parser),
- `mkfs/src/ext2.rs` (block-group accounting and the root directory
  entries of `Ext2Factory::create`),
and proves or refutes the specified properties about these definitions.

Machine integers are modelled as `Nat` (resp. `Int` for `i64`) with
explicit `% 2^w` truncation at the places where the Rust code performs a
narrowing cast or where wrap-around can occur.  Rust panics (`todo!()`,
`panic!()`, failing `unwrap()`, out-of-bounds indexing) are modelled as
`none` / a dedicated error constructor, as indicated next to each
definition.  A storage device is a total map from byte offsets to byte
values; `read_exact`/`write_all` at absolute offsets become pure reads
and functional overwrites of that map.
-/

/-! ## CRC32 engine — `fdisk/src/crc32.rs` -/

/-- Inner loop of `compute_lookuptable` (crc32.rs lines 22-24):
`for j in (0..table.len()).step_by(2 * i) { table[i ^ j] = crc ^ table[j]; }`
with `table.len() = 256`. -/
def crcInnerLoop (tbl : List Nat) (crc i : Nat) : List Nat :=
  ((List.range ((256 + 2 * i - 1) / (2 * i))).map (fun k => k * (2 * i))).foldl
    (fun t j => t.set (i ^^^ j) (crc ^^^ t.getD j 0)) tbl

/-- Outer `while i > 0` loop of `compute_lookuptable` (crc32.rs lines 15-27).
The index `i` is halved on every iteration (`i >>= 1`), starting from 128,
so the loop runs at most 8 times; `fuel` is an upper bound on the number of
iterations, chosen as 8 at the call site, which makes the recursion
structural.  The guard `0 < i` mirrors the `while` condition. -/
def crcTableLoop (polynom : Nat) : Nat → Nat → Nat → List Nat → List Nat
  | 0, _, _, tbl => tbl
  | fuel + 1, i, crc, tbl =>
    if 0 < i then
      let crc2 := if crc % 2 = 1 then (crc >>> 1) ^^^ polynom else crc >>> 1
      crcTableLoop polynom fuel (i >>> 1) crc2 (crcInnerLoop tbl crc2 i)
    else tbl

/-- `compute_lookuptable(table, polynom)` (crc32.rs lines 10-28).  At every
call site of the repository the input table is `[0u32; 256]`; the loop
starts with `i = table.len() / 2 = 128` and `crc = 1`. -/
def compute_lookuptable (polynom : Nat) : List Nat :=
  crcTableLoop polynom 8 128 1 (List.replicate 256 0)

/-- `compute(data, table)` (crc32.rs lines 32-42): Sarwate algorithm with
initial register `!0u32` and a final bitwise complement (`!crc`, i.e. XOR
with `0xffffffff` on a 32-bit value). -/
def crc32_compute (data : List Nat) (tbl : List Nat) : Nat :=
  (data.foldl (fun crc b => tbl.getD ((crc ^^^ b) &&& 0xff) 0 ^^^ (crc >>> 8))
    0xffffffff) ^^^ 0xffffffff

/-- The table for the GPT polynomial `0xedb88320` (partition.rs line 26). -/
def crcTableStd : List Nat := compute_lookuptable 0xedb88320

/-- The four little-endian bytes of a `u32` value. -/
def u32leBytes (n : Nat) : List Nat :=
  [n % 256, (n >>> 8) % 256, (n >>> 16) % 256, (n >>> 24) % 256]

/-! ## LBA translation — `fdisk/src/partition.rs` lines 33-47 -/

/-- `translate_lba(lba, storage_size)`.  `lba` is an `i64`, modelled as
`Int`; `storage_size` is a `u64`, modelled as `Nat`.  The cast
`-lba as u64` (reachable only for `lba < 0`) is `(-lba).toNat`; for every
`i64` value, including `i64::MIN` under wrapping negation, this agrees
with the machine result. -/
def translate_lba (lba : Int) (storage_size : Nat) : Option Nat :=
  if lba < 0 then
    if (-lba).toNat ≤ storage_size then some (storage_size - (-lba).toNat)
    else none
  else
    if lba.toNat < storage_size then some lba.toNat
    else none

/-! ## The storage device and the in-memory partition model -/

/-- A storage device: a total map from absolute byte offsets to byte values.
`File::seek(SeekFrom::Start(off))` followed by `read_exact`/`write_all`
becomes a pure read of, or a functional overwrite of, this map. -/
def Device : Type := Nat → Nat

/-- `read_exact` of `n` bytes at absolute offset `off`. -/
def readBytes (dev : Device) (off n : Nat) : List Nat :=
  (List.range n).map fun i => dev (off + i)

/-- A little-endian `u16` field read from the device (`repr(C, packed)`
structs are byte-cast from the read buffer, on a little-endian machine). -/
def readU16LE (dev : Device) (off : Nat) : Nat :=
  dev off + 256 * dev (off + 1)

/-- A little-endian `u32` field read from the device. -/
def readU32LE (dev : Device) (off : Nat) : Nat :=
  dev off + 256 * dev (off + 1) + 65536 * dev (off + 2) + 16777216 * dev (off + 3)

/-- A little-endian `u64` field read from the device. -/
def readU64LE (dev : Device) (off : Nat) : Nat :=
  readU32LE dev off + 2 ^ 32 * readU32LE dev (off + 4)

/-- A little-endian `i64` field read from the device (two's complement). -/
def readI64LE (dev : Device) (off : Nat) : Int :=
  let n := readU64LE dev off
  if n < 2 ^ 63 then (n : Int) else (n : Int) - 2 ^ 64

/-- A little-endian `u32` field of an in-memory byte buffer. -/
def bytesU32LE (b : List Nat) (off : Nat) : Nat :=
  b.getD off 0 + 256 * b.getD (off + 1) 0 + 65536 * b.getD (off + 2) 0
    + 16777216 * b.getD (off + 3) 0

/-- A little-endian `u64` field of an in-memory byte buffer. -/
def bytesU64LE (b : List Nat) (off : Nat) : Nat :=
  bytesU32LE b off + 2 ^ 32 * bytesU32LE b (off + 4)

/-- A little-endian `i64` field of an in-memory byte buffer. -/
def bytesI64LE (b : List Nat) (off : Nat) : Int :=
  let n := bytesU64LE b off
  if n < 2 ^ 63 then (n : Int) else (n : Int) - 2 ^ 64

/-- `write_all(bytes)` after a seek to `off`: byte `off + i` becomes
`bytes[i]`, every other offset keeps its previous value. -/
def overwrite (dev : Device) (off : Nat) (bytes : List Nat) : Device :=
  fun o => if off ≤ o ∧ o < off + bytes.length then bytes.getD (o - off) 0 else dev o

/-- `enum PartitionType` (partition.rs lines 1257-1262).  A `GUID` is its
16 stored bytes. -/
inductive PartitionType
  | MBR (t : Nat)
  | GPT (guid : List Nat)
deriving DecidableEq, Repr

/-- `struct Partition` (partition.rs lines 1292-1306). -/
structure Partition where
  start : Nat
  size : Nat
  part_type : PartitionType
  uuid : Option (List Nat)
  bootable : Bool
deriving DecidableEq, Repr

/-- `Partition::default()`: zeroes, `PartitionType::MBR(0)` (the `Default`
impl at partition.rs lines 1264-1268), no uuid, not bootable. -/
def partitionDefault : Partition :=
  { start := 0, size := 0, part_type := .MBR 0, uuid := none, bootable := false }

/-- `enum PartitionTableType` (partition.rs lines 223-228). -/
inductive PartitionTableType
  | MBR
  | GPT
deriving DecidableEq, Repr

/-- `struct PartitionTable` (partition.rs lines 1330-1335). -/
structure PartitionTable where
  table_type : PartitionTableType
  partitions : List Partition
deriving DecidableEq, Repr

/-! ## MBR write — `PartitionTableType::write`, MBR arm
(partition.rs lines 1110-1148) -/

/-- The 16 on-disk bytes of one `MBRPartition` entry as built by the write
loop (partition.rs lines 1130-1137): `attrs` is hard-coded to 0, both CHS
fields are zero, `lba_start = p.start as u32` and
`sectors_count = p.size as u32` (the `u32leBytes` encoding truncates
exactly like the `as` casts). -/
def mbrEntryBytes (t startLba sectors : Nat) : List Nat :=
  0 :: 0 :: 0 :: 0 :: t :: 0 :: 0 :: 0 :: (u32leBytes startLba ++ u32leBytes sectors)

/-- Building one entry from a `Partition` (partition.rs lines 1124-1137).
The `match p.part_type` arm `_ => panic!()` is modelled as `none`. -/
def mbrPartEntry (p : Partition) : Option (List Nat) :=
  match p.part_type with
  | .MBR t => some (mbrEntryBytes t p.start p.size)
  | .GPT _ => none

/-- The 72-byte slice written at offset 440 (partition.rs lines 1140-1147):
`disk_signature = 0` (u32), `zero` (u16), the four 16-byte entries, then
the table signature `0xaa55` as little-endian bytes `55 aa`. -/
def mbrSliceBytes (entries : List (List Nat)) : List Nat :=
  u32leBytes 0 ++ [0, 0] ++ entries.flatten ++ [0x55, 0xaa]

/-- The MBR arm of `PartitionTableType::write` (partition.rs lines
1110-1148).  `none` models a panic: the `todo!()` when more than 4
partitions are supplied (line 1121), or the `panic!()` on a non-MBR
partition type (line 1127).  Unused entry slots stay
`MBRPartition::default()`, i.e. 16 zero bytes.  Only bytes
`[440, 512)` of the device are written. -/
def mbrWrite (dev : Device) (parts : List Partition) : Option Device :=
  if 4 < parts.length then none
  else
    match parts.mapM mbrPartEntry with
    | none => none
    | some es =>
      let entries := es ++ List.replicate (4 - parts.length) (List.replicate 16 0)
      some (overwrite dev 440 (mbrSliceBytes entries))

/-! ## MBR read — `PartitionTableType::read`, MBR arm
(partition.rs lines 974-1000) -/

/-- The MBR arm of `PartitionTableType::read`: read 512 bytes at offset 0,
check the trailing signature `0xaa55` (u16 at offset 510), and emit a
`Partition` for each of the four entries (at offsets `446 + 16 i`) whose
`sectors_count` is nonzero; `bootable` is `MBRPartition::is_active`, i.e.
`attrs & (1 << 7) != 0` (partition.rs lines 150-152).  `none` is the
`Ok(None)` "no MBR" result. -/
def mbrRead (dev : Device) : Option (List Partition) :=
  if readU16LE dev 510 ≠ 0xaa55 then none
  else
    some ((List.range 4).filterMap fun i =>
      let off := 446 + i * 16
      let scount := readU32LE dev (off + 12)
      if 0 < scount then
        some { start := readU32LE dev (off + 8), size := scount,
               part_type := .MBR (dev (off + 4)), uuid := none,
               bootable := decide (dev off &&& (1 <<< 7) ≠ 0) }
      else none)

/-! ## GPT read — `PartitionTableType::read`, GPT arm
(partition.rs lines 1002-1062) -/

/-- The bytes of the GPT signature `b"EFI PART"` (partition.rs line 24). -/
def efiPartSignature : List Nat := [0x45, 0x46, 0x49, 0x20, 0x50, 0x41, 0x52, 0x54]

/-- Panics reachable from the GPT arm of `read`:
`invalidChecksum` is the `todo!()` on a header-checksum mismatch
(partition.rs line 1022), `entriesLbaOutOfRange` is the `.unwrap()` on
`translate_lba(hdr.entries_start, sector_size)` (line 1032). -/
inductive GptPanic
  | invalidChecksum
  | entriesLbaOutOfRange
deriving DecidableEq, Repr

/-- The 92-byte header buffer read at offset 512 (`size_of::<GPT>() = 92`
for the `repr(C, packed)` struct at partition.rs lines 188-219). -/
def gptHeaderBuff (dev : Device) : List Nat := readBytes dev 512 92

/-- `hdr.checksum = 0`: the checksum field occupies buffer bytes
`[16, 20)` (after signature 8, revision 4 and hdr_size 4 bytes). -/
def zeroChecksumField (b : List Nat) : List Nat :=
  b.take 16 ++ [0, 0, 0, 0] ++ b.drop 20

/-- One iteration of the entries loop (partition.rs lines 1034-1059): the
`GPTEntry` at absolute byte offset `off` is skipped (`none`) when its
`guid` field (entry bytes `[16, 32)`) is all zero; otherwise it becomes a
`Partition` with `start = entry.start as u64`,
`size = (entry.end - entry.start) as u64` (i64 arithmetic reinterpreted
as u64, i.e. reduction mod `2^64`; the release-mode wrapping semantics),
the type GUID from entry bytes `[0, 16)` and the unique GUID as `uuid`. -/
def gptEntryPartition (dev : Device) (off : Nat) : Option Partition :=
  let guid := readBytes dev (off + 16) 16
  if guid.all (· = 0) then none
  else
    some { start := ((readI64LE dev (off + 32)).emod (2 ^ 64)).toNat,
           size := (((readI64LE dev (off + 40)) - (readI64LE dev (off + 32))).emod (2 ^ 64)).toNat,
           part_type := .GPT (readBytes dev off 16),
           uuid := some guid,
           bootable := false }

/-- The GPT arm of `PartitionTableType::read` (partition.rs lines
1002-1062).  Read the header at offset 512; `Ok(None)` ("no GPT") when
the signature is absent; `todo!()` — modelled as
`.error .invalidChecksum` — when the header CRC32 (computed over the
92-byte buffer with the checksum field zeroed, table from polynomial
`0xedb88320`) differs from the stored checksum.  The entries checksum is
never verified and the alternate header is never consulted (the two
`TODO` comments at lines 1025-1026).  The entries array offset is
`translate_lba(hdr.entries_start, sector_size) * sector_size` with
`sector_size = 512` (line 1030-1032), and one entry of `entry_size`
bytes is read per index below `entries_number`. -/
def gptRead (dev : Device) : Except GptPanic (Option (List Partition)) :=
  let buff := gptHeaderBuff dev
  if buff.take 8 ≠ efiPartSignature then .ok none
  else
    let checksum := bytesU32LE buff 16
    if crc32_compute (zeroChecksumField buff) crcTableStd ≠ checksum then
      .error .invalidChecksum
    else
      match translate_lba (bytesI64LE buff 72) 512 with
      | none => .error .entriesLbaOutOfRange
      | some e =>
        let entriesOff := e * 512
        let num := bytesU32LE buff 80
        let esize := bytesU32LE buff 84
        .ok (some ((List.range num).filterMap fun i =>
          gptEntryPartition dev (entriesOff + i * esize)))

/-- `PartitionTable::read` (partition.rs lines 1347-1360): try GPT first,
then MBR; when both report "no table", return an empty MBR table.  The
unused `sectors_count` argument of the Rust function is kept. -/
def partitionTableRead (dev : Device) (_sectorsCount : Nat) :
    Except GptPanic PartitionTable :=
  match gptRead dev with
  | .error e => .error e
  | .ok (some ps) => .ok ⟨.GPT, ps⟩
  | .ok none =>
    match mbrRead dev with
    | some ps => .ok ⟨.MBR, ps⟩
    | none => .ok ⟨.MBR, []⟩

/-! ## GUID parsing — `src/fdisk/guid.rs` and `fdisk/src/partition.rs` -/

/-- Rust `char::is_alphanumeric`, restricted to ASCII (the theorems below
only instantiate ASCII strings, where the Unicode and ASCII predicates
agree). -/
def rustIsAlphanumeric (c : Char) : Bool := c.isAlphanum

/-- The value of one hexadecimal digit, per the `filter_map` arms of
`Guid::from_str` (guid.rs lines 25-30): `c - b'0'` on `'0'..='9'` (codes
48-57), `c - b'A' + 10` on `'A'..='F'` (codes 65-70, so `c - 55`),
`c - b'a' + 10` on `'a'..='f'` (codes 97-102, so `c - 87`); `none` for
every other char. -/
def hexNibble (c : Char) : Option Nat :=
  let n := c.toNat
  if 48 ≤ n ∧ n ≤ 57 then some (n - 48)
  else if 65 ≤ n ∧ n ≤ 70 then some (n - 55)
  else if 97 ≤ n ∧ n ≤ 102 then some (n - 87)
  else none

/-- `array_chunks::<2>` / the `while let (Some(hi), Some(lo))` pairing:
consecutive pairs, dropping a trailing odd element. -/
def chunks2 {α : Type} : List α → List (α × α)
  | a :: b :: rest => (a, b) :: chunks2 rest
  | _ => []

/-- The index permutation shared by both parsers (guid.rs lines 38-43,
partition.rs lines 75-81): byte-reverse groups `0..4`, `4..6`, `6..8`,
copy the rest in order. -/
def guidIndex (i : Nat) : Nat :=
  if i < 4 then 4 - i - 1
  else if i < 6 then 6 - i - 1 + 4
  else if i < 8 then 8 - i - 1 + 6
  else i

/-- The fill loop of `Guid::from_str` (guid.rs lines 36-45):
`guid.0[index] = b` panics when `index ≥ 16` (more than 16 decoded
bytes), modelled as `none`. -/
def guidFillLoop : List (Nat × Nat) → List Nat → Option (List Nat)
  | [], g => some g
  | (i, b) :: rest, g =>
    let idx := guidIndex i
    if idx < 16 then guidFillLoop rest (g.set idx b) else none

/-- `Guid::from_str` (guid.rs lines 14-47).  The outer `none` models a
panic (out-of-bounds array write); `some (.error ())` is `Err(())`;
`some (.ok g)` is `Ok(Guid(g))`.  Length is the Rust `str::len`, i.e.
the UTF-8 byte count. -/
def guidFromStr (s : String) : Option (Except Unit (List Nat)) :=
  if s.utf8ByteSize ≠ 36 then some (.error ())
  else if s.data.any (fun c => ¬(rustIsAlphanumeric c || c = '-')) then some (.error ())
  else
    let bytes := (chunks2 (s.data.filterMap hexNibble)).map fun p => p.1 * 16 + p.2
    (guidFillLoop bytes.enum (List.replicate 16 0)).map .ok

/-- The fill loop of `GUID::try_from` (partition.rs lines 68-85): pairs of
non-dash chars are decoded with `u8::from_str_radix(.., 16).unwrap()`,
which panics on a non-hex char (modelled `none`, like the out-of-bounds
`guid.0[index]` write). -/
def guidTryFromLoop : List (Nat × (Char × Char)) → List Nat → Option (List Nat)
  | [], g => some g
  | (i, (hi, lo)) :: rest, g =>
    match hexNibble hi, hexNibble lo with
    | some a, some b =>
      let idx := guidIndex i
      if idx < 16 then guidTryFromLoop rest (g.set idx (a * 16 + b)) else none
    | _, _ => none

/-- `GUID::try_from(&str)` (partition.rs lines 54-89): same length and
`is_alphanumeric`-or-dash checks as `Guid::from_str`, then pairs of the
chars left after removing dashes are hex-decoded with a panicking
`unwrap` ("Unwrap cannot fail since characters are checked before"). -/
def guidTryFrom (s : String) : Option (Except Unit (List Nat)) :=
  if s.utf8ByteSize ≠ 36 then some (.error ())
  else if s.data.any (fun c => ¬(rustIsAlphanumeric c || c = '-')) then some (.error ())
  else
    (guidTryFromLoop (chunks2 (s.data.filter (· ≠ '-'))).enum (List.replicate 16 0)).map .ok

/-! ## sfdisk-script serialization — partition.rs lines 1376-1487 -/

/-- `{:02x}` formatting of one byte (lowercase, two digits). -/
def hexByte (n : Nat) : String :=
  (if n < 16 then "0" else "") ++ String.mk (Nat.toDigits 16 n)

/-- `impl Display for GUID` (partition.rs lines 103-128): groups 1-3 are
printed byte-reversed, the remaining 8 bytes in storage order, lowercase,
with dashes after the 4th, 6th, 8th and 10th byte. -/
def guidDisplay (g : List Nat) : String :=
  hexByte (g.getD 3 0) ++ hexByte (g.getD 2 0) ++ hexByte (g.getD 1 0)
    ++ hexByte (g.getD 0 0) ++ "-"
    ++ hexByte (g.getD 5 0) ++ hexByte (g.getD 4 0) ++ "-"
    ++ hexByte (g.getD 7 0) ++ hexByte (g.getD 6 0) ++ "-"
    ++ hexByte (g.getD 8 0) ++ hexByte (g.getD 9 0) ++ "-"
    ++ hexByte (g.getD 10 0) ++ hexByte (g.getD 11 0) ++ hexByte (g.getD 12 0)
    ++ hexByte (g.getD 13 0) ++ hexByte (g.getD 14 0) ++ hexByte (g.getD 15 0)

/-- `impl Display for PartitionType` (partition.rs lines 1281-1288):
`{:x}` (unpadded lowercase hex) for an MBR byte, the dashed GUID form
for a GPT type. -/
def partitionTypeDisplay : PartitionType → String
  | .MBR n => String.mk (Nat.toDigits 16 n)
  | .GPT g => guidDisplay g

/-- `impl Display for Partition` (partition.rs lines 1308-1326). -/
def partitionDisplay (p : Partition) : String :=
  "start=" ++ toString p.start ++ ", size=" ++ toString p.size
    ++ ", type=" ++ partitionTypeDisplay p.part_type
    ++ (if p.bootable then ", bootable" else "")
    ++ (match p.uuid with
        | some u => ", uuid=" ++ guidDisplay u
        | none => "")

/-- `PartitionTable::serialize` (partition.rs lines 1376-1392): the
two-line header, a blank line, then one `<dev><i> : <partition>` line per
partition. -/
def serializeTable (t : PartitionTable) (dev : String) : String :=
  "device: " ++ dev ++ "\n" ++ "unit: sectors\n" ++ "\n"
    ++ String.join (t.partitions.enum.map fun p =>
         dev ++ toString p.1 ++ " : " ++ partitionDisplay p.2 ++ "\n")

/-- Rust `char::is_whitespace` as used by `str::trim`, restricted to
ASCII whitespace (the only whitespace the serializer emits). -/
def rustIsWhitespace (c : Char) : Bool := c.isWhitespace

/-- Rust `str::split(sep)` for a character separator, on the character
list of the string: `n` separators yield `n + 1` segments. -/
def splitOnChar (sep : Char) : List Char → List (List Char)
  | [] => [[]]
  | c :: rest =>
    match splitOnChar sep rest with
    | [] => if c = sep then [[], []] else [[c]]
    | h :: t => if c = sep then [] :: h :: t else (c :: h) :: t

/-- Rust `str::trim` on a character list. -/
def trimChars (l : List Char) : List Char :=
  ((l.dropWhile rustIsWhitespace).reverse.dropWhile rustIsWhitespace).reverse

/-- Rust `<u64 as FromStr>::from_str` (`val.parse::<u64>()`): an optional
leading `+`, then one or more ASCII digits, rejecting overflow past
`u64::MAX`. -/
def parseU64 (l : List Char) : Option Nat :=
  let t := match l with
    | '+' :: rest => rest
    | _ => l
  if t.isEmpty then none
  else if t.all (fun c => '0' ≤ c ∧ c ≤ '9') then
    let v := t.foldl (fun a c => a * 10 + (c.toNat - '0'.toNat)) 0
    if v < 2 ^ 64 then some v else none
  else none

/-- `u8::from_str_radix(s, 16)`: an optional leading `+`, then one or more
hex digits, rejecting overflow past `u8::MAX`. -/
def parseU8Hex (l : List Char) : Option Nat :=
  let t := match l with
    | '+' :: rest => rest
    | _ => l
  if t.isEmpty then none
  else
    match t.mapM hexNibble with
    | some ds =>
      let v := ds.foldl (fun a d => a * 16 + d) 0
      if v < 256 then some v else none
    | none => none

/-- `impl TryFrom<&str> for PartitionType` (partition.rs lines 1270-1279):
try `GUID::try_from` first, fall back to `u8::from_str_radix(s, 16)`.
The outer `none` propagates a `GUID::try_from` panic. -/
def partitionTypeTryFrom (l : List Char) : Option (Except Unit PartitionType) :=
  match guidTryFrom (String.mk l) with
  | none => none
  | some (.ok g) => some (.ok (.GPT g))
  | some (.error ()) =>
    match parseU8Hex l with
    | some n => some (.ok (.MBR n))
    | none => some (.error ())

/-- One `key[=value]` token of a partition line (partition.rs lines
1420-1477).  `split('=')` always yields at least one segment, so the
`name` is always present; the optional second segment is the value.  The
outer `none` propagates a parser panic (`GUID::try_from`). -/
def applyToken (part : Partition) (v : List Char) : Option (Except String Partition) :=
  let segs := splitOnChar '=' v
  let name := trimChars (segs.getD 0 [])
  let value := (segs.get? 1).map trimChars
  if name = "start".data then
    match value with
    | none => some (.error "`start` requires a value")
    | some val =>
      match parseU64 val with
      | some n => some (.ok { part with start := n })
      | none => some (.error ("Invalid value for `start`: " ++ String.mk val))
  else if name = "size".data then
    match value with
    | none => some (.error "`size` requires a value")
    | some val =>
      match parseU64 val with
      | some n => some (.ok { part with size := n })
      | none => some (.error ("Invalid value for `size`: " ++ String.mk val))
  else if name = "type".data then
    match value with
    | none => some (.error "`type` requires a value")
    | some val =>
      match partitionTypeTryFrom val with
      | none => none
      | some (.ok pt) => some (.ok { part with part_type := pt })
      | some (.error ()) => some (.error ("Invalid value for `type`: " ++ String.mk val))
  else if name = "uuid".data then
    match value with
    | none => some (.error "`uuid` requires a value")
    | some val =>
      match guidTryFrom (String.mk val) with
      | none => none
      | some (.ok g) => some (.ok { part with uuid := some g })
      | some (.error ()) => some (.error ("Invalid value for `uuid`: " ++ String.mk val))
  else if name = "bootable".data then some (.ok { part with bootable := true })
  else some (.error ("Unknown attribute: `" ++ String.mk name ++ "`"))

/-- The fold of `applyToken` over the comma-separated tokens of one line,
starting from `Partition::default()` (partition.rs lines 1419-1478). -/
def applyTokens : List (List Char) → Partition → Option (Except String Partition)
  | [], part => some (.ok part)
  | v :: rest, part =>
    match applyToken part v with
    | none => none
    | some (.error e) => some (.error e)
    | some (.ok p2) => applyTokens rest p2

/-- One partition line (partition.rs lines 1413-1480): everything up to
the first `:` is dropped; a line with no `:` is `Err("Invalid syntax")`;
the text between the first and second `:` is split on `,`. -/
def parsePartitionLine (line : List Char) : Option (Except String Partition) :=
  match (splitOnChar ':' line).get? 1 with
  | none => some (.error "Invalid syntax")
  | some values => applyTokens (splitOnChar ',' values) partitionDefault

/-- The header-skip loop (partition.rs lines 1399-1404): consume lines up
to and including the first line that is blank after trimming. -/
def skipHeader : List (List Char) → List (List Char)
  | [] => []
  | l :: rest => if (trimChars l).isEmpty then rest else skipHeader rest

/-- The partition-line loop (partition.rs lines 1407-1481): blank lines
are skipped, parsed partitions are pushed in order, the first `Err`
aborts. -/
def deserializeLines : List (List Char) → Option (Except String (List Partition))
  | [] => some (.ok [])
  | line :: rest =>
    if (trimChars line).isEmpty then deserializeLines rest
    else
      match parsePartitionLine line with
      | none => none
      | some (.error e) => some (.error e)
      | some (.ok p) =>
        match deserializeLines rest with
        | none => none
        | some (.error e) => some (.error e)
        | some (.ok ps) => some (.ok (p :: ps))

/-- `PartitionTable::deserialize` (partition.rs lines 1397-1487).  The
returned table's `table_type` is hard-coded to
`PartitionTableType::MBR` (the `// TODO` at line 1484). -/
def deserializeTable (script : String) : Option (Except String PartitionTable) :=
  match deserializeLines (skipHeader (splitOnChar '\n' script.data)) with
  | none => none
  | some (.error e) => some (.error e)
  | some (.ok ps) => some (.ok ⟨.MBR, ps⟩)

/-! ## ext2 initializer — `mkfs/src/ext2.rs`, `Ext2Factory::create`

The derived quantities of `create` (lines 406-562) as functions of the
resolved configuration: `len` (filesystem length in bytes), `bs` (block
size), `bpg` (blocks per group), `ipg` (inodes per group).  `M32`/`M16`
mark the points where the Rust code uses `u32`/`u16` arithmetic or an
`as` cast. -/

/-- Truncation to `u32`. -/
def M32 (n : Nat) : Nat := n % 2 ^ 32

/-- Truncation to `u16`. -/
def M16 (n : Nat) : Nat := n % 2 ^ 16

/-- Rust `div_ceil` on naturals (callers guarantee a nonzero divisor). -/
def rustDivCeil (a b : Nat) : Nat := (a + b - 1) / b

/-- `total_blocks = (len / block_size) as u32` (ext2.rs line 422). -/
def ext2TotalBlocks (len bs : Nat) : Nat := M32 (len / bs)

/-- `groups_count = total_blocks / blocks_per_group` (line 423). -/
def ext2GroupsCount (len bs bpg : Nat) : Nat := ext2TotalBlocks len bs / bpg

/-- `bgdt_off = (SUPERBLOCK_OFFSET / block_size) + 1` (line 494),
with `SUPERBLOCK_OFFSET = 1024`. -/
def ext2BgdtOff (bs : Nat) : Nat := 1024 / bs + 1

/-- `bgdt_size = (groups_count * 32).div_ceil(block_size)` (lines
495-496); `size_of::<BlockGroupDescriptor>() = 32`. -/
def ext2BgdtSize (len bs bpg : Nat) : Nat :=
  rustDivCeil (ext2GroupsCount len bs bpg * 32) bs

/-- `bgdt_end = bgdt_off + bgdt_size` (line 497). -/
def ext2BgdtEnd (len bs bpg : Nat) : Nat := ext2BgdtOff bs + ext2BgdtSize len bs bpg

/-- `block_usage_bitmap_size = blocks_per_group.div_ceil((block_size * 8) as u32)`
(line 499). -/
def ext2BlockBitmapSize (bs bpg : Nat) : Nat := rustDivCeil bpg (M32 (bs * 8))

/-- `inode_usage_bitmap_size` (line 500), analogous. -/
def ext2InodeBitmapSize (bs ipg : Nat) : Nat := rustDivCeil ipg (M32 (bs * 8))

/-- `inodes_table_size = (inodes_per_group * s_inode_size).div_ceil(block_size as u32)`
(lines 501-502); `s_inode_size = 128`. -/
def ext2InodeTableSize (bs ipg : Nat) : Nat :=
  rustDivCeil (M32 (ipg * 128)) (M32 bs)

/-- `metadata_size` (line 503), a `u32` sum. -/
def ext2MetadataSize (bs bpg ipg : Nat) : Nat :=
  M32 (ext2BlockBitmapSize bs bpg + ext2InodeBitmapSize bs ipg + ext2InodeTableSize bs ipg)

/-- `used_blocks_end = bgdt_end as u32 + groups_count * metadata_size + 1`
(line 506): the end of the reserved block prefix, the trailing `+ 1`
reserving the root-directory entries block. -/
def ext2UsedBlocksEnd (len bs bpg ipg : Nat) : Nat :=
  M32 (M32 (ext2BgdtEnd len bs bpg)
    + M32 (ext2GroupsCount len bs bpg * ext2MetadataSize bs bpg ipg) + 1)

/-- `used_blocks_count` for group `i` (lines 524-528):
`min(blocks_per_group, used_blocks_end.saturating_sub(begin_block))`
with `begin_block = i * blocks_per_group`. -/
def ext2UsedBlocksCount (len bs bpg ipg i : Nat) : Nat :=
  min bpg (ext2UsedBlocksEnd len bs bpg ipg - M32 (i * bpg))

/-- `bg_free_blocks_count` of group `i` as written (lines 513-535): the
`u16` initial value `blocks_per_group as u16` decremented by
`used_blocks_count as u16` with wrapping `u16` subtraction. -/
def ext2BgFreeBlocks (len bs bpg ipg i : Nat) : Nat :=
  (M16 bpg + 2 ^ 16 - M16 (ext2UsedBlocksCount len bs bpg ipg i)) % 2 ^ 16

/-- `used_inodes_count` for group `i` (lines 538-544):
`min(inodes_per_group, s_first_ino.saturating_sub(begin_inode))` with
`s_first_ino = 11` and `begin_inode = i * inodes_per_group`. -/
def ext2UsedInodesCount (ipg i : Nat) : Nat :=
  min ipg (11 - M32 (i * ipg))

/-- `bg_free_inodes_count` of group `i` as written (lines 518-551). -/
def ext2BgFreeInodes (ipg i : Nat) : Nat :=
  (M16 ipg + 2 ^ 16 - M16 (ext2UsedInodesCount ipg i)) % 2 ^ 16

/-- `superblock.s_free_blocks_count` after the group loop (line 558): the
`u32` running sum of the per-group free block counts. -/
def ext2SFreeBlocks (len bs bpg ipg : Nat) : Nat :=
  M32 (∑ i ∈ Finset.range (ext2GroupsCount len bs bpg), ext2BgFreeBlocks len bs bpg ipg i)

/-- `superblock.s_free_inodes_count` after the group loop (line 559). -/
def ext2SFreeInodes (len bs bpg ipg : Nat) : Nat :=
  M32 (∑ i ∈ Finset.range (ext2GroupsCount len bs bpg), ext2BgFreeInodes ipg i)

/-- `size_of::<DirectoryEntry>()`: the `repr(C, packed)` header struct
(ext2.rs lines 336-346) is `u32 + u16 + u8 + u8 = 8` bytes. -/
def sizeOfDirectoryEntry : Nat := 8

/-- A written directory entry: the four header fields plus the name bytes
that follow the header on disk. -/
structure Ext2DirEntry where
  inode : Nat
  rec_len : Nat
  name_len : Nat
  file_type : Nat
  name : List Nat
deriving DecidableEq, Repr

/-- The `.` entry written at offset 0 of the reserved root-entries block
(ext2.rs lines 599-606): inode `ROOT_INODE = 2`,
`rec_len = size_of::<DirectoryEntry>() + 8 = 16`, `name_len = 1`, type
indicator 0, name `b"."`. -/
def ext2RootSelfEntry : Ext2DirEntry :=
  { inode := 2, rec_len := sizeOfDirectoryEntry + 8, name_len := 1, file_type := 0,
    name := [0x2e] }

/-- The byte offset inside the root-entries block at which the `..` entry
is written: the `seek(entries_block_off + 16)` at ext2.rs line 613. -/
def ext2RootParentEntryOffset : Nat := 16

/-- The `..` entry (ext2.rs lines 607-615): inode 2,
`rec_len = (block_size - (size_of::<DirectoryEntry>() + 8) as u64) as u16`,
`name_len = 2`, type indicator 0, name `b".."`.  (For `bs < 16` the `u64`
subtraction would panic; the code's assert at line 566 guarantees
`bs ≥ 32` before this point, so the truncated `Nat` subtraction is
exact on every reachable input.) -/
def ext2RootParentEntry (bs : Nat) : Ext2DirEntry :=
  { inode := 2, rec_len := M16 (bs - (sizeOfDirectoryEntry + 8)), name_len := 2,
    file_type := 0, name := [0x2e, 0x2e] }

/-! ## Concrete devices and inputs used by the evaluation theorems -/

/-- A device holding only zero bytes. -/
def zeroDev : Device := fun _ => 0

/-- A device that carries the `"EFI PART"` signature at offset 512 and
zeroes everywhere else; its stored header checksum (0) does not match
the CRC32 of the header bytes. -/
def badChecksumDev : Device := fun off =>
  if 512 ≤ off ∧ off < 520 then efiPartSignature.getD (off - 512) 0 else 0

/-- The header CRC32 of a GPT header whose bytes are the signature
followed by 84 zero bytes. -/
def gptOkChecksum : Nat :=
  crc32_compute (efiPartSignature ++ List.replicate 84 0) crcTableStd

/-- A device with a valid primary GPT header: the signature at offset 512,
the matching header checksum at offset 528, `entries_number = 0`, and
zeroes elsewhere. -/
def gptOkDev : Device := fun off =>
  if 512 ≤ off ∧ off < 520 then efiPartSignature.getD (off - 512) 0
  else if 528 ≤ off ∧ off < 532 then (gptOkChecksum >>> (8 * (off - 528))) % 256
  else 0

/-- The partition list of test scenario 4 of the specification: one
bootable Linux (`0x83`) partition at LBA 2048 of 204800 sectors. -/
def scenario4Parts : List Partition :=
  [{ start := 2048, size := 204800, part_type := .MBR 0x83, uuid := none,
     bootable := true }]

/-- The device produced by the MBR write of `scenario4Parts` on a zeroed
device. -/
def scenario4Dev : Device :=
  match mbrWrite zeroDev scenario4Parts with
  | some d => d
  | none => zeroDev

/-- A device whose bytes are all 7, used to witness the MBR write frame
property. -/
def sevenDev : Device := fun _ => 7

/-- The result of writing an empty MBR partition list on `sevenDev`. -/
def sevenDevWritten : Device :=
  match mbrWrite sevenDev [] with
  | some d => d
  | none => sevenDev

/-- A 36-character input made of alphanumeric, non-hexadecimal
characters. -/
def allGsInput : String := "gggggggg-gggg-gggg-gggg-gggggggggggg"

/-! ## Helper lemmas -/

/-- Each successfully built MBR entry is 16 bytes. -/
theorem mbrPartEntry_length (p : Partition) (l : List Nat)
    (h : mbrPartEntry p = some l) : l.length = 16 := by
  rcases p with ⟨s, z, pt, u, b⟩
  cases pt with
  | MBR t =>
    simp only [mbrPartEntry] at h
    injection h with h
    subst h
    simp [mbrEntryBytes, u32leBytes]
  | GPT g => simp [mbrPartEntry] at h

/-- A successful `mapM mbrPartEntry` preserves the length and yields
16 bytes per partition. -/
theorem mapM_mbrPartEntry_spec :
    ∀ (ps : List Partition) (es : List (List Nat)),
      ps.mapM mbrPartEntry = some es →
        es.length = ps.length ∧ es.flatten.length = 16 * ps.length := by
  intro ps
  induction ps with
  | nil =>
    intro es h
    simp only [List.mapM_nil, Option.pure_def, Option.some.injEq] at h
    subst h
    simp
  | cons p rest ih =>
    intro es h
    simp only [List.mapM_cons, Option.pure_def, Option.bind_eq_bind,
      Option.bind_eq_some] at h
    obtain ⟨b, hb, bs, hbs, hes⟩ := h
    obtain ⟨hes1, hes2⟩ := ih bs hbs
    injection hes with hes
    subst hes
    have hbl := mbrPartEntry_length p b hb
    constructor
    · simp [hes1]
    · simp only [List.flatten_cons, List.length_append, List.length_cons]
      omega

/-- The prefix of the header buffer is the corresponding shorter read. -/
theorem gptHeaderBuff_take_eight (dev : Device) :
    (gptHeaderBuff dev).take 8 = readBytes dev 512 8 := by
  simp only [gptHeaderBuff, readBytes, ← List.map_take, List.take_range]
  norm_num

/-! ## Sanity checks of the embedding against the repository's own tests -/

/-- The standard check value of CRC-32: the embedding reproduces
`crc32("123456789") = 0xcbf43926` for the polynomial `0xedb88320`. -/
theorem crc32_check_value :
    crc32_compute [0x31, 0x32, 0x33, 0x34, 0x35, 0x36, 0x37, 0x38, 0x39] crcTableStd
      = 0xcbf43926 := by
  decide

/-- The `guid_parse_valid` unit test of guid.rs lines 91-109: both case
variants of `"c12a7328-f81f-11d2-ba4b-00a0c93ec93b"` parse to the
expected stored bytes. -/
theorem guid_parse_valid_repo_test :
    guidFromStr "c12a7328-f81f-11d2-ba4b-00a0c93ec93b"
        = some (.ok [0x28, 0x73, 0x2a, 0xc1, 0x1f, 0xf8, 0xd2, 0x11,
                     0xba, 0x4b, 0x00, 0xa0, 0xc9, 0x3e, 0xc9, 0x3b]) ∧
    guidFromStr "C12A7328-F81F-11D2-BA4B-00A0C93EC93B"
        = some (.ok [0x28, 0x73, 0x2a, 0xc1, 0x1f, 0xf8, 0xd2, 0x11,
                     0xba, 0x4b, 0x00, 0xa0, 0xc9, 0x3e, 0xc9, 0x3b]) := by
  exact ⟨by decide, by decide⟩

/-- The `partitions_serialize1` unit test of partition.rs lines 1509-1528:
the embedded serializer and deserializer round-trip its MBR table. -/
theorem script_mbr_roundtrip_repo_test :
    deserializeTable (serializeTable
        ⟨.MBR, [⟨0, 1, .MBR 0xab,
                 some [0, 1, 2, 3, 4, 5, 6, 7, 8, 9, 10, 11, 12, 13, 14, 15],
                 false⟩]⟩ "/dev/sda")
      = some (.ok ⟨.MBR, [⟨0, 1, .MBR 0xab,
                 some [0, 1, 2, 3, 4, 5, 6, 7, 8, 9, 10, 11, 12, 13, 14, 15],
                 false⟩]⟩) := by
  decide

/-! ## The claims -/

/-- Claim C1: for every byte buffer `B` and table `T` built by
`compute_lookuptable` (in particular from `0xedb88320`), appending the
four little-endian bytes of `compute(B, T)` to `B` should yield a buffer
whose `compute` value is zero.  This FAILS on the code at the buffer
`B = []`: the checksum of the empty buffer is `0`, and the checksum of
`[] ++ [0, 0, 0, 0]` is the CRC-32 residue constant `0x2144df1c`, not
`0`.  (The final complement `!crc` in `compute` makes the self-check
value a nonzero constant; the unit test `crc32_0` in crc32.rs asserts
exactly the claimed property and is falsified by the implementation.) -/
theorem crc32_append_self_check_fails :
    crc32_compute [] crcTableStd = 0 ∧
    crc32_compute ([] ++ u32leBytes (crc32_compute [] crcTableStd)) crcTableStd
      = 0x2144df1c ∧
    (0x2144df1c : Nat) ≠ 0 := by
  exact ⟨by decide, by decide, by decide⟩

/-- Claim C2: `deserialize(serialize(t))` should equal `t` for every valid
table of either type.  This FAILS on the code for every GPT table:
`PartitionTable::deserialize` hard-codes the resulting `table_type` to
MBR, so the serialized empty GPT table deserializes to the empty MBR
table. -/
theorem script_roundtrip_gpt_fails :
    deserializeTable (serializeTable ⟨.GPT, []⟩ "/dev/sda")
      = some (.ok ⟨.MBR, []⟩) ∧
    (⟨.MBR, ([] : List Partition)⟩ : PartitionTable) ≠ ⟨.GPT, []⟩ := by
  exact ⟨by decide, by decide⟩

/-- Claim C3: when the primary GPT header fails a check, `read` should
fall back to the alternate header and, failing that, report "no GPT" as
a structured result.  This FAILS on the code: on `badChecksumDev` — a
device carrying the `"EFI PART"` signature at offset 512 whose stored
header checksum does not match the computed CRC32 — the GPT arm of
`read` hits the `todo!()` (modelled `.error .invalidChecksum`), aborting
instead of consulting the alternate header; no code path reads the
alternate header at all. -/
theorem gpt_read_bad_checksum_panics :
    gptRead badChecksumDev = .error .invalidChecksum ∧
    ∀ r, gptRead badChecksumDev ≠ .ok r := by
  refine ⟨by decide, ?_⟩
  intro r h
  rw [show gptRead badChecksumDev = .error .invalidChecksum from by decide] at h
  cases h

/-- Claim C4 counterexample: the claim states that `.` has
`rec_len = 12` and that `..` follows at byte offset 12 with
`rec_len = block_size - 12`.  The code writes `rec_len = 16` for `.`
(`size_of::<DirectoryEntry>() + 8`), seeks to offset 16 for `..`, and
gives `..` the rec_len `block_size - 16` (shown at the default block
size 4096). -/
theorem ext2_root_entries_not_twelve :
    ext2RootSelfEntry.rec_len = 16 ∧ ext2RootSelfEntry.rec_len ≠ 12 ∧
    ext2RootParentEntryOffset = 16 ∧ ext2RootParentEntryOffset ≠ 12 ∧
    (ext2RootParentEntry 4096).rec_len = 4096 - 16 ∧
    (ext2RootParentEntry 4096).rec_len ≠ 4096 - 12 := by
  decide

/-- Claim C4 as amended: after `create`, the reserved root-entries block
holds `.` (inode 2, rec_len 16 = 8-byte header + 8 padding bytes,
name_len 1) at offset 0, and `..` (inode 2, rec_len = block_size − 16,
name_len 2) at byte offset 16, consuming the rest of the block.  The
hypotheses mirror the code's own assert `block_size ≥ 32` and keep the
`u16` cast of the rec_len exact. -/
theorem ext2_root_entries_amended (bs : Nat) (h32 : 32 ≤ bs)
    (hfit : bs - 16 < 2 ^ 16) :
    ext2RootSelfEntry = ⟨2, 16, 1, 0, [0x2e]⟩ ∧
    ext2RootParentEntryOffset = 16 ∧
    ext2RootParentEntry bs = ⟨2, bs - 16, 2, 0, [0x2e, 0x2e]⟩ := by
  refine ⟨by decide, by decide, ?_⟩
  simp only [ext2RootParentEntry, M16, sizeOfDirectoryEntry, Ext2DirEntry.mk.injEq]
  simp only [true_and, and_true]
  omega

/-- Witness for the amended C4 at the default block size 4096. -/
theorem ext2_root_entries_amended_witness :
    ext2RootSelfEntry = ⟨2, 16, 1, 0, [0x2e]⟩ ∧
    ext2RootParentEntryOffset = 16 ∧
    ext2RootParentEntry 4096 = ⟨2, 4096 - 16, 2, 0, [0x2e, 0x2e]⟩ :=
  ext2_root_entries_amended 4096 (by decide) (by decide)

/-- Claim C5: after `PartitionTableType::MBR.write` of the single
partition `{start: 2048, size: 204800, part_type: Mbr(0x83),
bootable: true}`, the signature bytes at 510..512 are `55 aa` and entry 0
carries `partition_type = 0x83`, `lba_start = 2048` and
`sectors_count = 204800` — but the claim FAILS on `attrs`: the write loop
hard-codes `attrs: 0`, so the active/bootable bit 7 is NOT set (byte 446
is `0x00`, not the claimed `0x80`), even though `MBRPartition::is_active`
reads exactly that bit back. -/
theorem mbr_write_drops_bootable :
    mbrWrite zeroDev scenario4Parts = some scenario4Dev ∧
    scenario4Dev 510 = 0x55 ∧ scenario4Dev 511 = 0xaa ∧
    scenario4Dev 450 = 0x83 ∧
    readU32LE scenario4Dev 454 = 2048 ∧
    readU32LE scenario4Dev 458 = 204800 ∧
    scenario4Dev 446 = 0x00 ∧ (0x00 : Nat) ≠ 0x80 := by
  exact ⟨rfl, by decide, by decide, by decide, by decide, by decide, by decide, by decide⟩

/-- Claim C6: for every device and every partition list of at most 4
entries, the MBR write that completes modifies only bytes [440, 512): in
particular, the 440 boot-code bytes below offset 440 are unchanged, as is
everything from offset 512 on. -/
theorem mbr_write_frame (dev : Device) (parts : List Partition)
    (hlen : parts.length ≤ 4) (dev2 : Device)
    (hw : mbrWrite dev parts = some dev2)
    (o : Nat) (ho : o < 440 ∨ 512 ≤ o) : dev2 o = dev o := by
  unfold mbrWrite at hw
  rw [if_neg (by omega)] at hw
  cases hm : parts.mapM mbrPartEntry with
  | none => rw [hm] at hw; cases hw
  | some es =>
    rw [hm] at hw
    simp only [Option.some.injEq] at hw
    subst hw
    have hspec := mapM_mbrPartEntry_spec parts es hm
    have hflat :
        (es ++ List.replicate (4 - parts.length)
          (List.replicate 16 0)).flatten.length = 64 := by
      rw [List.flatten_append, List.length_append]
      have h2 : (List.replicate (4 - parts.length)
          (List.replicate (16 : Nat) (0 : Nat))).flatten.length
          = (4 - parts.length) * 16 := by
        rw [List.length_flatten, List.map_replicate, List.length_replicate,
          List.sum_replicate, smul_eq_mul]
      omega
    have hslice :
        (mbrSliceBytes (es ++ List.replicate (4 - parts.length)
          (List.replicate 16 0))).length = 72 := by
      simp only [mbrSliceBytes, u32leBytes, List.length_append, List.length_cons,
        List.length_nil]
      omega
    simp only [overwrite, hslice]
    rw [if_neg (by omega)]

/-- Witness for C6: writing the empty partition list on the all-7 device
leaves byte 0 unchanged. -/
theorem mbr_write_frame_witness :
    List.length ([] : List Partition) ≤ 4 ∧ sevenDevWritten 0 = sevenDev 0 :=
  ⟨by decide, mbr_write_frame sevenDev [] (by decide) sevenDevWritten rfl 0
    (Or.inl (by decide))⟩

/-- Claim C7: `translate_lba` returns `some lba` for `0 ≤ lba <
total_sectors`, `some (total_sectors - (-lba))` for `-total_sectors ≤
lba < 0`, and `none` otherwise; it is defined exactly on the interval
`[-total_sectors, total_sectors - 1]`.  The range hypotheses state that
`lba` is an `i64` and `storage` a `u64` value. -/
theorem translate_lba_characterization (lba : Int) (storage : Nat)
    (hlo : -(2 ^ 63 : Int) ≤ lba) (hhi : lba < 2 ^ 63)
    (hst : (storage : Int) < 2 ^ 64) :
    (0 ≤ lba → lba < (storage : Int) →
      translate_lba lba storage = some lba.toNat) ∧
    (lba < 0 → -lba ≤ (storage : Int) →
      translate_lba lba storage = some (storage - (-lba).toNat)) ∧
    ((lba < -(storage : Int) ∨ (storage : Int) ≤ lba) →
      translate_lba lba storage = none) ∧
    ((translate_lba lba storage).isSome ↔
      (-(storage : Int) ≤ lba ∧ lba < (storage : Int))) := by
  refine ⟨?_, ?_, ?_, ?_⟩
  · intro h0 hlt
    rw [translate_lba, if_neg (by omega), if_pos (by omega)]
  · intro hneg hle
    rw [translate_lba, if_pos hneg, if_pos (by omega)]
  · intro h
    rcases h with h | h
    · rw [translate_lba, if_pos (by omega), if_neg (by omega)]
    · rw [translate_lba, if_neg (by omega), if_neg (by omega)]
  · rw [translate_lba]
    split_ifs with h1 h2 h3 <;> simp <;> omega

/-- Witness for C7 at `storage = 10`: in-range positive, in-range
negative, and out-of-range inputs. -/
theorem translate_lba_characterization_witness :
    translate_lba 5 10 = some 5 ∧
    translate_lba (-3) 10 = some 7 ∧
    translate_lba 12 10 = none := by
  refine ⟨?_, ?_, ?_⟩
  · have h := (translate_lba_characterization 5 10 (by decide) (by decide)
      (by decide)).1 (by decide) (by decide)
    simpa using h
  · have h := (translate_lba_characterization (-3) 10 (by decide) (by decide)
      (by decide)).2.1 (by decide) (by decide)
    simpa using h
  · exact (translate_lba_characterization 12 10 (by decide) (by decide)
      (by decide)).2.2.1 (by decide)

/-- Claim C8: GUID parsing should return an error whenever the input
contains a character that is not a hex digit or `-`.  This FAILS on the
code for alphanumeric non-hex characters: the pre-check only rejects
non-alphanumeric characters, so on a 36-character all-`g` input
`GUID::try_from` (partition.rs) panics on
`u8::from_str_radix(..).unwrap()` — despite its comment "Unwrap cannot
fail since characters are checked before" — while `Guid::from_str`
(guid.rs) silently filters the characters out and returns `Ok` of the
all-zero GUID. -/
theorem guid_parse_non_hex_not_rejected :
    allGsInput.utf8ByteSize = 36 ∧
    guidTryFrom allGsInput = none ∧
    guidFromStr allGsInput = some (.ok (List.replicate 16 0)) := by
  exact ⟨by decide, by decide, by decide⟩

/-- Claim C9: after `create`, every block group descriptor holds
`bg_free_blocks_count = blocks_per_group`, minus the number of blocks of
group `i` (block indices `[i*bpg, (i+1)*bpg)`) lying inside the reserved
prefix `[0, used_blocks_end)`, and `bg_free_inodes_count =
inodes_per_group` minus the number of reserved inode slots (bitmap
indices below `s_first_ino = 11`) falling in group `i`; the superblock
free counts are the sums of the per-group counts.  The hypotheses bound
the configuration to the machine-integer ranges in which `create`
computes without overflow. -/
theorem ext2_free_counts (len bs bpg ipg : Nat)
    (hbs : 0 < bs) (hbs8 : bs * 8 < 2 ^ 32)
    (hbpg0 : 0 < bpg) (hbpg : bpg < 2 ^ 16)
    (hipg0 : 0 < ipg) (hipg : ipg < 2 ^ 16)
    (hti : ipg * ext2GroupsCount len bs bpg < 2 ^ 32)
    (i : Nat) (hi : i < ext2GroupsCount len bs bpg) :
    ext2BgFreeBlocks len bs bpg ipg i
      = bpg - ((Finset.Ico (i * bpg) ((i + 1) * bpg)).filter
          (fun j => j < ext2UsedBlocksEnd len bs bpg ipg)).card ∧
    ext2BgFreeInodes ipg i
      = ipg - ((Finset.Ico (i * ipg) ((i + 1) * ipg)).filter
          (fun j => j < 11)).card ∧
    ext2SFreeBlocks len bs bpg ipg
      = ∑ j ∈ Finset.range (ext2GroupsCount len bs bpg),
          ext2BgFreeBlocks len bs bpg ipg j ∧
    ext2SFreeInodes len bs bpg ipg
      = ∑ j ∈ Finset.range (ext2GroupsCount len bs bpg),
          ext2BgFreeInodes ipg j := by
  have htb : ext2TotalBlocks len bs < 2 ^ 32 := Nat.mod_lt _ (by norm_num)
  have hGb : ext2GroupsCount len bs bpg * bpg ≤ ext2TotalBlocks len bs :=
    Nat.div_mul_le_self _ _
  have hfb : ∀ j, j < ext2GroupsCount len bs bpg →
      ext2BgFreeBlocks len bs bpg ipg j
        = bpg - min bpg (ext2UsedBlocksEnd len bs bpg ipg - j * bpg) := by
    intro j hj
    have hjs : (j + 1) * bpg ≤ ext2GroupsCount len bs bpg * bpg :=
      Nat.mul_le_mul_right bpg hj
    have hadd : (j + 1) * bpg = j * bpg + bpg := by ring
    simp only [ext2BgFreeBlocks, ext2UsedBlocksCount, M16, M32]
    omega
  have hfi : ∀ j, j < ext2GroupsCount len bs bpg →
      ext2BgFreeInodes ipg j = ipg - min ipg (11 - j * ipg) := by
    intro j hj
    have hjs : (j + 1) * ipg ≤ ext2GroupsCount len bs bpg * ipg :=
      Nat.mul_le_mul_right ipg hj
    have hcomm : ext2GroupsCount len bs bpg * ipg
        = ipg * ext2GroupsCount len bs bpg := by ring
    have hadd : (j + 1) * ipg = j * ipg + ipg := by ring
    simp only [ext2BgFreeInodes, ext2UsedInodesCount, M16, M32]
    omega
  have hbound : ∀ j, j < ext2GroupsCount len bs bpg →
      ext2BgFreeBlocks len bs bpg ipg j ≤ bpg := by
    intro j hj
    rw [hfb j hj]
    omega
  have hboundi : ∀ j, j < ext2GroupsCount len bs bpg →
      ext2BgFreeInodes ipg j ≤ ipg := by
    intro j hj
    rw [hfi j hj]
    omega
  have hsumb : ∑ j ∈ Finset.range (ext2GroupsCount len bs bpg),
      ext2BgFreeBlocks len bs bpg ipg j < 2 ^ 32 := by
    have h1 : ∑ j ∈ Finset.range (ext2GroupsCount len bs bpg),
        ext2BgFreeBlocks len bs bpg ipg j
        ≤ ∑ _j ∈ Finset.range (ext2GroupsCount len bs bpg), bpg :=
      Finset.sum_le_sum fun j hj => hbound j (Finset.mem_range.mp hj)
    rw [Finset.sum_const, Finset.card_range, smul_eq_mul] at h1
    omega
  have hsumi : ∑ j ∈ Finset.range (ext2GroupsCount len bs bpg),
      ext2BgFreeInodes ipg j < 2 ^ 32 := by
    have h1 : ∑ j ∈ Finset.range (ext2GroupsCount len bs bpg),
        ext2BgFreeInodes ipg j
        ≤ ∑ _j ∈ Finset.range (ext2GroupsCount len bs bpg), ipg :=
      Finset.sum_le_sum fun j hj => hboundi j (Finset.mem_range.mp hj)
    rw [Finset.sum_const, Finset.card_range, smul_eq_mul] at h1
    have hcomm : ext2GroupsCount len bs bpg * ipg
        = ipg * ext2GroupsCount len bs bpg := by ring
    omega
  refine ⟨?_, ?_, ?_, ?_⟩
  · have hset : (Finset.Ico (i * bpg) ((i + 1) * bpg)).filter
        (fun j => j < ext2UsedBlocksEnd len bs bpg ipg)
        = Finset.Ico (i * bpg)
            (min ((i + 1) * bpg) (ext2UsedBlocksEnd len bs bpg ipg)) := by
      ext x
      simp only [Finset.mem_filter, Finset.mem_Ico, lt_min_iff]
      omega
    rw [hfb i hi, hset, Nat.card_Ico]
    have hadd : (i + 1) * bpg = i * bpg + bpg := by ring
    omega
  · have hset : (Finset.Ico (i * ipg) ((i + 1) * ipg)).filter
        (fun j => j < 11)
        = Finset.Ico (i * ipg) (min ((i + 1) * ipg) 11) := by
      ext x
      simp only [Finset.mem_filter, Finset.mem_Ico, lt_min_iff]
      omega
    rw [hfi i hi, hset, Nat.card_Ico]
    have hadd : (i + 1) * ipg = i * ipg + ipg := by ring
    omega
  · simp only [ext2SFreeBlocks, M32]
    exact Nat.mod_eq_of_lt hsumb
  · simp only [ext2SFreeInodes, M32]
    exact Nat.mod_eq_of_lt hsumi

/-- Witness for C9 at the default configuration on a 64 MiB device
(`len = 67108864`, `bs = 4096`, `bpg = ipg = 1024`, 16 groups), group 0. -/
theorem ext2_free_counts_witness :
    ext2BgFreeBlocks 67108864 4096 1024 1024 0
      = 1024 - ((Finset.Ico (0 * 1024) ((0 + 1) * 1024)).filter
          (fun j => j < ext2UsedBlocksEnd 67108864 4096 1024 1024)).card ∧
    ext2BgFreeInodes 1024 0
      = 1024 - ((Finset.Ico (0 * 1024) ((0 + 1) * 1024)).filter
          (fun j => j < 11)).card ∧
    ext2SFreeBlocks 67108864 4096 1024 1024
      = ∑ j ∈ Finset.range (ext2GroupsCount 67108864 4096 1024),
          ext2BgFreeBlocks 67108864 4096 1024 1024 j ∧
    ext2SFreeInodes 67108864 4096 1024 1024
      = ∑ j ∈ Finset.range (ext2GroupsCount 67108864 4096 1024),
          ext2BgFreeInodes 1024 j :=
  ext2_free_counts 67108864 4096 1024 1024 (by decide) (by decide) (by decide)
    (by decide) (by decide) (by decide) (by decide) 0 (by decide)

/-- Claim C10: on a device carrying neither the MBR signature `0xaa55` at
offset 510 nor the GPT signature `"EFI PART"` at offset 512,
`PartitionTable::read` returns `Ok` of an empty MBR table rather than an
error; and since GPT is probed before MBR, any device whose GPT read
succeeds is reported as GPT regardless of its MBR bytes. -/
theorem partition_table_read_fallback (dev devg : Device) (ps : List Partition) :
    (readU16LE dev 510 ≠ 0xaa55 → readBytes dev 512 8 ≠ efiPartSignature →
      partitionTableRead dev 0 = .ok ⟨.MBR, []⟩) ∧
    (gptRead devg = .ok (some ps) →
      partitionTableRead devg 0 = .ok ⟨.GPT, ps⟩) := by
  constructor
  · intro hm hg
    have hsig : gptRead dev = .ok none := by
      simp only [gptRead]
      rw [gptHeaderBuff_take_eight, if_pos hg]
    have hmr : mbrRead dev = none := by
      simp only [mbrRead]
      rw [if_pos hm]
    simp only [partitionTableRead, hsig, hmr]
  · intro h
    simp only [partitionTableRead, h]

/-- Witness for C10: the all-zero device falls back to the empty MBR
table; `gptOkDev` (a device with a valid, empty GPT) is reported as
GPT. -/
theorem partition_table_read_fallback_witness :
    partitionTableRead zeroDev 0 = .ok ⟨.MBR, []⟩ ∧
    partitionTableRead gptOkDev 0 = .ok ⟨.GPT, []⟩ :=
  ⟨(partition_table_read_fallback zeroDev gptOkDev []).1 (by decide) (by decide),
   (partition_table_read_fallback zeroDev gptOkDev []).2 (by decide)⟩
